import Mathlib

/-!
Shallow embedding of `src/app.py` (video/audio analyzer pipeline).

The program is a linear pipeline: upload → temp copy → audio extraction
(pydub) → transcription (whisper) → LLM analysis (Gemini) → presentation.
External services are modelled as oracle functions; the file system is a
partial map from paths to byte contents; user-visible effects (st.error,
st.spinner) and file-system effects are recorded in a chronological event
trace.  Machine-level details (actual temp-path generation) are modelled by
passing the two fresh temp paths as parameters.
-/

namespace VideoAnalyser

/-- File contents, modelled as a list of byte values. -/
abbrev Bytes := List Nat

/-- The file system visible to one run: a partial map from paths to contents. -/
def FS : Type := String → Option Bytes

/-- Write (create or overwrite) a file. -/
def setFile (fs : FS) (p : String) (c : Bytes) : FS :=
  fun q => if q = p then some c else fs q

/-- Delete a file (`os.unlink`). -/
def removeFile (fs : FS) (p : String) : FS :=
  fun q => if q = p then none else fs q

/-- A file system with no files. -/
def emptyFS : FS := fun _ => none

/-- Observable events of one run, in chronological order: file-system writes,
reads and deletions, `st.error` messages and `st.spinner` progress contexts. -/
inductive Event where
  | fileWrite (path : String)
  | fileRead (path : String)
  | fileDelete (path : String)
  | userError (msg : String)
  | spinner (msg : String)
  deriving DecidableEq

/-- Errors raised by pipeline steps and propagated out of `process_file`
(the Python code catches none of them; the `finally` block reraises). -/
inductive PipeError where
  | missingFile (path : String)
  | decodeFailure (msg : String)
  | transcriptionFailure (msg : String)
  | analysisFailure (msg : String)
  deriving DecidableEq

/-- The three external services, as deterministic oracles over contents:
`decode` is pydub `AudioSegment.from_file` + `export` (container bytes to WAV
bytes), `transcribe` is the cached whisper model (WAV bytes to text, treated
as a pure function of file content), `generate` is the Gemini call. -/
structure Oracles where
  decode : Bytes → Except String Bytes
  transcribe : Bytes → Except String String
  generate : String → Except String String

/-- An uploaded file: client-declared name plus raw bytes. -/
structure UploadedFile where
  name : String
  content : Bytes
  deriving DecidableEq

/-- Result of an effectful step: the returned value or the raised error,
the file system afterwards, and the events emitted. -/
structure EffOut (α : Type) where
  result : Except PipeError α
  fs : FS
  trace : List Event

/-- Python `os.path.splitext` extension search over the characters of a pure
file name (no directory part): the extension starts at the last dot, provided
some character before that dot is not itself a dot (so all-dots prefixes such
as `.bashrc` or `..x` yield no extension). `seenNonDot` records whether a
non-dot character has occurred so far. -/
def extFrom (seenNonDot : Bool) : List Char → Option (List Char)
  | [] => none
  | c :: rest =>
    if c = '.' then
      match extFrom seenNonDot rest with
      | some e => some e
      | none => if seenNonDot then some (c :: rest) else none
    else
      extFrom true rest

/-- The second component of `os.path.splitext(name)`: the extension including
its leading dot, or `""` when there is none. -/
def splitextExt (name : String) : String :=
  match extFrom false name.toList with
  | some e => String.mk e
  | none => ""

/-- Python `str.lower` on the character sequence (ASCII case folding, one
character at a time). -/
def strLower (s : String) : String :=
  String.mk (s.data.map Char.toLower)

/-- Line 43 of app.py: `os.path.splitext(uploaded_file.name)[1].lower()`. -/
def file_extension_of (name : String) : String :=
  strLower (splitextExt name)

/-- Video extensions accepted at line 53 of app.py. -/
def videoExts : List String := [".mp4", ".mov", ".avi"]

/-- Audio extensions accepted at line 56 of app.py. -/
def audioExts : List String := [".m4a", ".wav", ".mp3"]

/-- An extension that reaches one of the two extraction branches. -/
def SupportedExt (e : String) : Prop := e ∈ videoExts ∨ e ∈ audioExts

instance (e : String) : Decidable (SupportedExt e) := by
  unfold SupportedExt; infer_instance

/-- Lines 9–15 of app.py: `get_api_key`.  `secrets` is
`st.secrets["GOOGLE_API_KEY"]` — `some v` when the lookup succeeds with value
`v` (possibly empty), `none` when it raises.  The bare `except:` falls back to
`os.getenv("GOOGLE_API_KEY")`, modelled by `env`. -/
def get_api_key (secrets env : Option String) : Option String :=
  match secrets with
  | some v => some v
  | none => env

/-- Lines 28–30 of app.py: `extract_audio(file_path, output_path)` reads the
input container, decodes it, and exports WAV bytes to the output path.  A
missing input or a pydub decode error raises. -/
def extract_audio (decode : Bytes → Except String Bytes)
    (file_path output_path : String) (fs : FS) : EffOut Unit :=
  match fs file_path with
  | none =>
      { result := Except.error (PipeError.missingFile file_path)
        fs := fs
        trace := [Event.fileRead file_path] }
  | some c =>
      match decode c with
      | Except.error m =>
          { result := Except.error (PipeError.decodeFailure m)
            fs := fs
            trace := [Event.fileRead file_path] }
      | Except.ok wav =>
          { result := Except.ok ()
            fs := setFile fs output_path wav
            trace := [Event.fileRead file_path, Event.fileWrite output_path] }

/-- Lines 32–34 of app.py: `transcribe_audio(audio_path)` runs the whisper
model on the file at `audio_path` and returns `result["text"]`.  Returns the
outcome and the events emitted; it does not change the file system. -/
def transcribe_audio (transcribe : Bytes → Except String String)
    (audio_path : String) (fs : FS) : Except PipeError String × List Event :=
  match fs audio_path with
  | none => (Except.error (PipeError.missingFile audio_path), [Event.fileRead audio_path])
  | some c =>
      match transcribe c with
      | Except.error m =>
          (Except.error (PipeError.transcriptionFailure m), [Event.fileRead audio_path])
      | Except.ok t => (Except.ok t, [Event.fileRead audio_path])

/-- Lines 36–40 of app.py: `analyze_text(text, prompt_template)` builds
`full_prompt = f"{prompt_template}\n\nTranscription:\n{text}"`, submits it to
the generative model, and returns the response text. -/
def analyze_text (generate : String → Except String String)
    (text prompt_template : String) : Except PipeError String :=
  let full_prompt := prompt_template ++ "\n\nTranscription:\n" ++ text
  (generate full_prompt).mapError PipeError.analysisFailure

/-- The extraction/transcription/analysis sequence of the `try` block
(lines 54–69 of app.py) once an extraction branch was chosen, with its
spinner messages. -/
def runSteps (orc : Oracles) (spinMsg path1 path2 prompt_template : String)
    (fs : FS) : EffOut (Option String × Option String) :=
  let ex := extract_audio orc.decode path1 path2 fs
  match ex.result with
  | Except.error e =>
      { result := Except.error e, fs := ex.fs
        trace := Event.spinner spinMsg :: ex.trace }
  | Except.ok _ =>
      let tr := transcribe_audio orc.transcribe path2 ex.fs
      match tr.1 with
      | Except.error e =>
          { result := Except.error e, fs := ex.fs
            trace := Event.spinner spinMsg ::
              (ex.trace ++ Event.spinner "Transcribing audio..." :: tr.2) }
      | Except.ok transcription =>
          match analyze_text orc.generate transcription prompt_template with
          | Except.error e =>
              { result := Except.error e, fs := ex.fs
                trace := Event.spinner spinMsg ::
                  (ex.trace ++ Event.spinner "Transcribing audio..." :: tr.2 ++
                    [Event.spinner "Analyzing content..."]) }
          | Except.ok analysis =>
              { result := Except.ok (some transcription, some analysis), fs := ex.fs
                trace := Event.spinner spinMsg ::
                  (ex.trace ++ Event.spinner "Transcribing audio..." :: tr.2 ++
                    [Event.spinner "Analyzing content..."]) }

/-- The `try` block of `process_file` (lines 52–69 of app.py): dispatch on the
lowercased extension; unsupported extensions show `st.error` and return
`(None, None)`. -/
def tryBody (orc : Oracles) (file_extension path1 path2 prompt_template : String)
    (fs : FS) : EffOut (Option String × Option String) :=
  if file_extension ∈ videoExts then
    runSteps orc "Extracting audio from video..." path1 path2 prompt_template fs
  else if file_extension ∈ audioExts then
    runSteps orc "Converting audio to WAV format..." path1 path2 prompt_template fs
  else
    { result := Except.ok (none, none), fs := fs
      trace := [Event.userError "Unsupported file format. Please upload a video or audio file."] }

/-- The cleanup of the `finally` block (lines 71–76 of app.py):
`if os.path.exists(p): os.unlink(p)`. -/
def unlinkIfExists (fs : FS) (p : String) : FS × List Event :=
  if (fs p).isSome then (removeFile fs p, [Event.fileDelete p]) else (fs, [])

/-- Lines 42–76 of app.py: `process_file(uploaded_file, prompt_template)`.
`path1` and `path2` are the fresh names chosen by the two
`NamedTemporaryFile(delete=False)` calls; the first receives the uploaded
bytes, the second is created empty with suffix `.wav`.  The `finally` block
unlinks whichever of the two still exists; an error raised inside the `try`
block is reraised after cleanup (the `result` field carries it). -/
def process_file (orc : Oracles) (path1 path2 : String) (uploaded_file : UploadedFile)
    (prompt_template : String) (fs0 : FS) : EffOut (Option String × Option String) :=
  let file_extension := file_extension_of uploaded_file.name
  let fs1 := setFile fs0 path1 uploaded_file.content
  let fs2 := setFile fs1 path2 []
  let body := tryBody orc file_extension path1 path2 prompt_template fs2
  let c1 := unlinkIfExists body.fs path1
  let c2 := unlinkIfExists c1.1 path2
  { result := body.result
    fs := c2.1
    trace := Event.fileWrite path1 :: Event.fileWrite path2 ::
      (body.trace ++ c1.2 ++ c2.2) }

/-- Paths written, in order of occurrence. -/
def writesOf (tr : List Event) : List String :=
  tr.filterMap fun e =>
    match e with
    | Event.fileWrite p => some p
    | _ => none

/-- Paths deleted, in order of occurrence. -/
def deletesOf (tr : List Event) : List String :=
  tr.filterMap fun e =>
    match e with
    | Event.fileDelete p => some p
    | _ => none

/-- Spinner messages shown, in order of occurrence; nonempty exactly when some
processing step was started. -/
def spinnersOf (tr : List Event) : List String :=
  tr.filterMap fun e =>
    match e with
    | Event.spinner m => some m
    | _ => none

/-- Whether the trace contains an `st.error` event. -/
def containsUserError (tr : List Event) : Bool :=
  tr.any fun e =>
    match e with
    | Event.userError _ => true
    | _ => false

/-- Whether some file-write event strictly precedes some `st.error` event. -/
def writePrecedesUserError : List Event → Bool
  | [] => false
  | Event.fileWrite _ :: rest => containsUserError rest || writePrecedesUserError rest
  | _ :: rest => writePrecedesUserError rest

/-- Python truthiness of a `str`-or-`None` value: `None` and `""` are falsy. -/
def pyTruthy : Option String → Bool
  | none => false
  | some s => s != ""

/-- Line 126 of app.py: `if transcription and analysis:` gates the Analysis
and Transcription tabs (and their download links). -/
def rendersResults (transcription analysis : Option String) : Bool :=
  pyTruthy transcription && pyTruthy analysis

/-- A sample oracle assignment used for concrete runs: decoding is the
identity on bytes, transcription and generation return fixed text. -/
def sampleOracles : Oracles where
  decode := fun b => Except.ok b
  transcribe := fun _ => Except.ok "hello world"
  generate := fun _ => Except.ok "analysis text"

/-! ## Helper lemmas -/

/-- Grouping lemma for a five-fold append. -/
theorem append_five (p a b c t : String) :
    p ++ a ++ b ++ c ++ t = p ++ (a ++ b ++ c) ++ t := by
  rw [String.append_assoc p a b, String.append_assoc p (a ++ b) c]

/-- After `unlinkIfExists`, the target path is gone and others are untouched. -/
theorem unlinkIfExists_apply (fs : FS) (p q : String) :
    (unlinkIfExists fs p).1 q = if q = p then none else fs q := by
  unfold unlinkIfExists removeFile
  by_cases hs : (fs p).isSome
  · simp [hs]
  · rw [Option.not_isSome_iff_eq_none] at hs
    by_cases hq : q = p <;> simp [hs, hq, Bool.false_eq_true]

/-- Reading back the path just written. -/
theorem setFile_same (fs : FS) (p : String) (c : Bytes) : setFile fs p c p = some c := by
  simp [setFile]

/-- Writing one path leaves every other path unchanged. -/
theorem setFile_other (fs : FS) (p q : String) (c : Bytes) (h : q ≠ p) :
    setFile fs p c q = fs q := by
  simp [setFile, h]

/-- Cleanup emits no spinner events. -/
theorem spinnersOf_unlink (fs : FS) (p : String) :
    spinnersOf (unlinkIfExists fs p).2 = [] := by
  unfold unlinkIfExists
  by_cases h : (fs p).isSome <;> simp [h, spinnersOf]

/-- `spinnersOf` distributes over append. -/
theorem spinnersOf_append (a b : List Event) :
    spinnersOf (a ++ b) = spinnersOf a ++ spinnersOf b := by
  simp [spinnersOf]

/-- Every branch of the step sequence opens with its extraction spinner. -/
theorem runSteps_spinner_mem (orc : Oracles) (m p1 p2 pr : String) (fs : FS) :
    Event.spinner m ∈ (runSteps orc m p1 p2 pr fs).trace := by
  rcases hx : (extract_audio orc.decode p1 p2 fs).result with e | u
  · simp only [runSteps, hx]
    exact List.mem_cons_self _ _
  · rcases ht : (transcribe_audio orc.transcribe p2 (extract_audio orc.decode p1 p2 fs).fs).1
      with e | t
    · simp only [runSteps, hx, ht]
      exact List.mem_cons_self _ _
    · rcases hg : analyze_text orc.generate t pr with e | a
      · simp only [runSteps, hx, ht, hg]
        exact List.mem_cons_self _ _
      · simp only [runSteps, hx, ht, hg]
        exact List.mem_cons_self _ _

/-- A normal (non-raising) return of the step sequence always carries both a
transcript and an analysis. -/
theorem runSteps_ok_shape (orc : Oracles) (m p1 p2 pr : String) (fs : FS)
    (r : Option String × Option String)
    (h : (runSteps orc m p1 p2 pr fs).result = Except.ok r) :
    ∃ t a, r = (some t, some a) := by
  rcases hx : (extract_audio orc.decode p1 p2 fs).result with e | u
  · simp only [runSteps, hx] at h
    exact Except.noConfusion h
  · rcases ht : (transcribe_audio orc.transcribe p2 (extract_audio orc.decode p1 p2 fs).fs).1
      with e | t
    · simp only [runSteps, hx, ht] at h
      exact Except.noConfusion h
    · rcases hg : analyze_text orc.generate t pr with e | a
      · simp only [runSteps, hx, ht, hg] at h
        exact Except.noConfusion h
      · simp only [runSteps, hx, ht, hg, Except.ok.injEq] at h
        exact ⟨t, a, h.symm⟩

/-- On a successful return, the step sequence's transcript and analysis are
exactly the oracles' answers on the decoded upload bytes. -/
theorem runSteps_success_shape (orc : Oracles) (m p1 p2 pr : String) (fs : FS)
    (c : Bytes) (t a : String) (hc : fs p1 = some c)
    (h : (runSteps orc m p1 p2 pr fs).result = Except.ok (some t, some a)) :
    ∃ wav, orc.decode c = Except.ok wav ∧ orc.transcribe wav = Except.ok t ∧
      orc.generate (pr ++ "\n\nTranscription:\n" ++ t) = Except.ok a := by
  rcases hd : orc.decode c with e | wav
  · simp only [runSteps, extract_audio, hc, hd] at h
    exact Except.noConfusion h
  · have h2 : (setFile fs p2 wav) p2 = some wav := setFile_same fs p2 wav
    rcases ht : orc.transcribe wav with e | t0
    · simp only [runSteps, extract_audio, transcribe_audio, hc, hd, h2, ht] at h
      exact Except.noConfusion h
    · rcases hg : orc.generate (pr ++ "\n\nTranscription:\n" ++ t0) with e | a0
      · simp only [runSteps, extract_audio, transcribe_audio, analyze_text,
          Except.mapError, hc, hd, h2, ht, hg] at h
        exact Except.noConfusion h
      · simp only [runSteps, extract_audio, transcribe_audio, analyze_text,
          Except.mapError, hc, hd, h2, ht, hg, Except.ok.injEq, Prod.mk.injEq,
          Option.some.injEq] at h
        obtain ⟨h1, h2'⟩ := h
        subst h1; subst h2'
        exact ⟨wav, rfl, ht, hg⟩

/-- After the upload copy and the `.wav` placeholder are created, the upload
copy still holds the uploaded bytes (the two temp paths are distinct). -/
theorem upload_copy_content (fs0 : FS) (p1 p2 : String) (c : Bytes) (hp : p1 ≠ p2) :
    (setFile (setFile fs0 p1 c) p2 []) p1 = some c := by
  rw [setFile_other _ _ _ _ hp, setFile_same]

/-- The cleanup events of `unlinkIfExists` are nothing or one deletion. -/
theorem unlink_trace_cases (fs : FS) (p : String) :
    (unlinkIfExists fs p).2 = [] ∨ (unlinkIfExists fs p).2 = [Event.fileDelete p] := by
  unfold unlinkIfExists
  by_cases h : (fs p).isSome <;> simp [h]

/-- Full behaviour of a run on an unsupported extension: `(None, None)` is
returned, the rejection message is shown, no processing step starts, and both
temp files are gone at the end. -/
theorem unsupported_spec (orc : Oracles) (p1 p2 : String) (uf : UploadedFile)
    (pr : String) (fs0 : FS) (h : ¬ SupportedExt (file_extension_of uf.name)) :
    (process_file orc p1 p2 uf pr fs0).result = Except.ok (none, none) ∧
    Event.userError "Unsupported file format. Please upload a video or audio file." ∈
      (process_file orc p1 p2 uf pr fs0).trace ∧
    spinnersOf (process_file orc p1 p2 uf pr fs0).trace = [] ∧
    (process_file orc p1 p2 uf pr fs0).fs p1 = none ∧
    (process_file orc p1 p2 uf pr fs0).fs p2 = none := by
  have hv : ¬ (file_extension_of uf.name ∈ videoExts) := fun hx => h (Or.inl hx)
  have ha : ¬ (file_extension_of uf.name ∈ audioExts) := fun hx => h (Or.inr hx)
  simp only [process_file, tryBody, if_neg hv, if_neg ha]
  refine ⟨trivial, ?_, ?_, ?_, ?_⟩
  · simp [List.mem_cons, List.mem_append]
  · obtain h1 | h1 := unlink_trace_cases (setFile (setFile fs0 p1 uf.content) p2 []) p1 <;>
      obtain h2 | h2 :=
        unlink_trace_cases
          (unlinkIfExists (setFile (setFile fs0 p1 uf.content) p2 []) p1).1 p2 <;>
      rw [h1, h2] <;> rfl
  · rw [unlinkIfExists_apply]
    by_cases h12 : p1 = p2
    · simp [h12]
    · rw [if_neg h12, unlinkIfExists_apply, if_pos rfl]
  · rw [unlinkIfExists_apply, if_pos rfl]

/-- The extension test of a supported run: membership in the six-element
extension list is the same as reaching one of the two extraction branches. -/
theorem supported_iff_mem_six (e : String) :
    SupportedExt e ↔ e ∈ [".mp4", ".mov", ".avi", ".m4a", ".wav", ".mp3"] := by
  simp only [SupportedExt, videoExts, audioExts, List.mem_cons,
    List.not_mem_nil, or_false]
  tauto

/-! ## Claims -/

/-- C3: for every transcript string and every prompt-template string, the text
submitted by the Analyzer to the generative model equals
`prompt_template ++ "\n\n" ++ "Transcription:" ++ "\n" ++ transcript` exactly
(stated against an arbitrary stub `generate` capturing its input). -/
theorem analyze_text_prompt_composition
    (generate : String → Except String String) (text prompt_template : String) :
    analyze_text generate text prompt_template =
      (generate (prompt_template ++ "\n\n" ++ "Transcription:" ++ "\n" ++ text)).mapError
        PipeError.analysisFailure := by
  unfold analyze_text
  rw [append_five prompt_template "\n\n" "Transcription:" "\n" text,
    show ("\n\n" ++ "Transcription:" ++ "\n" : String) = "\n\nTranscription:\n" from rfl]

/-- C6 counterexample: when the secrets store yields the empty string, the
code returns that empty string, not the environment variable's value, so
"first non-empty result" is false as stated. -/
theorem get_api_key_empty_secrets_counterexample :
    get_api_key (some "") (some "ENV_KEY") = some "" ∧
      get_api_key (some "") (some "ENV_KEY") ≠ some "ENV_KEY" := by
  constructor
  · rfl
  · decide

/-- C6 (amended): credential resolution tries the secrets store first and
falls back to the environment variable only when the secrets lookup raises
(key absent); a successful secrets lookup wins even when its value is empty. -/
theorem get_api_key_precedence (v : String) (env : Option String) :
    get_api_key (some v) env = some v ∧ get_api_key none env = env :=
  ⟨rfl, rfl⟩

/-- C10: the Analysis and Transcription views (and their download links) are
rendered if and only if both returned values are present and non-empty
strings; a run returning an empty transcript or empty analysis renders no
result views. -/
theorem rendersResults_iff (transcription analysis : Option String) :
    rendersResults transcription analysis = true ↔
      ((∃ s, transcription = some s ∧ s ≠ "") ∧
        (∃ s, analysis = some s ∧ s ≠ "")) := by
  cases transcription with
  | none => simp [rendersResults, pyTruthy]
  | some s =>
    cases analysis with
    | none => simp [rendersResults, pyTruthy]
    | some s2 =>
      simp only [rendersResults, pyTruthy, Bool.and_eq_true, bne_iff_ne]
      constructor
      · rintro ⟨h1, h2⟩
        exact ⟨⟨s, rfl, h1⟩, ⟨s2, rfl, h2⟩⟩
      · rintro ⟨⟨u, hu, hu2⟩, ⟨w, hw, hw2⟩⟩
        cases hu; cases hw
        exact ⟨hu2, hw2⟩

/-- On a successful pipeline run, the returned transcript and analysis are the
oracles' answers on the decoded uploaded bytes. -/
theorem process_success_shape (orc : Oracles) (p1 p2 : String) (uf : UploadedFile)
    (pr : String) (fs0 : FS) (t a : String) (hp : p1 ≠ p2)
    (h : (process_file orc p1 p2 uf pr fs0).result = Except.ok (some t, some a)) :
    ∃ wav, orc.decode uf.content = Except.ok wav ∧ orc.transcribe wav = Except.ok t ∧
      orc.generate (pr ++ "\n\nTranscription:\n" ++ t) = Except.ok a := by
  have hc := upload_copy_content fs0 p1 p2 uf.content hp
  simp only [process_file] at h
  by_cases hv : file_extension_of uf.name ∈ videoExts
  · simp only [tryBody, if_pos hv] at h
    exact runSteps_success_shape _ _ _ _ _ _ _ _ _ hc h
  · by_cases ha : file_extension_of uf.name ∈ audioExts
    · simp only [tryBody, if_neg hv, if_pos ha] at h
      exact runSteps_success_shape _ _ _ _ _ _ _ _ _ hc h
    · simp only [tryBody, if_neg hv, if_neg ha] at h
      simp at h

/-- C1: on every exit path of `process_file` — normal completion, rejection of
an unsupported extension, or any step raising an error — both temp files
created by the run (the uploaded-input copy at `p1` and the intermediate
`.wav` at `p2`) are absent from the final file system: zero leftovers. -/
theorem process_file_temp_cleanup (orc : Oracles) (p1 p2 : String)
    (uf : UploadedFile) (pr : String) (fs0 : FS) :
    (process_file orc p1 p2 uf pr fs0).fs p1 = none ∧
    (process_file orc p1 p2 uf pr fs0).fs p2 = none := by
  simp only [process_file]
  constructor
  · rw [unlinkIfExists_apply]
    by_cases h12 : p1 = p2
    · simp [h12]
    · rw [if_neg h12, unlinkIfExists_apply, if_pos rfl]
  · rw [unlinkIfExists_apply, if_pos rfl]

/-- C2 counterexample: on an unsupported `.txt` upload, the run's trace shows
both temp-file writes happening strictly before the "unsupported format"
message, so the claim that no file is written prior to the rejection decision
is false. -/
theorem write_before_rejection_counterexample :
    (process_file sampleOracles "/tmp/upload.txt" "/tmp/audio.wav"
        ⟨"notes.txt", [0]⟩ "prompt" emptyFS).trace =
      [Event.fileWrite "/tmp/upload.txt", Event.fileWrite "/tmp/audio.wav",
        Event.userError "Unsupported file format. Please upload a video or audio file.",
        Event.fileDelete "/tmp/upload.txt", Event.fileDelete "/tmp/audio.wav"] ∧
    writePrecedesUserError
      (process_file sampleOracles "/tmp/upload.txt" "/tmp/audio.wav"
        ⟨"notes.txt", [0]⟩ "prompt" emptyFS).trace = true :=
  ⟨by decide, by decide⟩

/-- C2 (amended): an unsupported extension is rejected with the user-visible
"unsupported format" message before any processing step starts (no spinner is
ever shown), and although the two temp files are written before the rejection
decision, both are deleted before `process_file` returns. -/
theorem process_file_unsupported_rejection (orc : Oracles) (p1 p2 : String)
    (uf : UploadedFile) (pr : String) (fs0 : FS)
    (h : ¬ SupportedExt (file_extension_of uf.name)) :
    (process_file orc p1 p2 uf pr fs0).result = Except.ok (none, none) ∧
    Event.userError "Unsupported file format. Please upload a video or audio file." ∈
      (process_file orc p1 p2 uf pr fs0).trace ∧
    spinnersOf (process_file orc p1 p2 uf pr fs0).trace = [] ∧
    (process_file orc p1 p2 uf pr fs0).fs p1 = none ∧
    (process_file orc p1 p2 uf pr fs0).fs p2 = none :=
  unsupported_spec orc p1 p2 uf pr fs0 h

/-- Witness for C2 (amended), at a concrete `.txt` upload. -/
theorem process_file_unsupported_rejection_witness :
    (¬ SupportedExt (file_extension_of "notes.txt")) ∧
    ((process_file sampleOracles "/t/u.txt" "/t/a.wav" ⟨"notes.txt", [0]⟩ "p"
        emptyFS).result = Except.ok (none, none) ∧
      Event.userError "Unsupported file format. Please upload a video or audio file." ∈
        (process_file sampleOracles "/t/u.txt" "/t/a.wav" ⟨"notes.txt", [0]⟩ "p"
          emptyFS).trace ∧
      spinnersOf (process_file sampleOracles "/t/u.txt" "/t/a.wav" ⟨"notes.txt", [0]⟩ "p"
        emptyFS).trace = [] ∧
      (process_file sampleOracles "/t/u.txt" "/t/a.wav" ⟨"notes.txt", [0]⟩ "p"
        emptyFS).fs "/t/u.txt" = none ∧
      (process_file sampleOracles "/t/u.txt" "/t/a.wav" ⟨"notes.txt", [0]⟩ "p"
        emptyFS).fs "/t/a.wav" = none) :=
  ⟨by decide,
    process_file_unsupported_rejection sampleOracles "/t/u.txt" "/t/a.wav"
      ⟨"notes.txt", [0]⟩ "p" emptyFS (by decide)⟩

/-- C4: whenever `process_file` returns normally, the returned pair is either
`(transcript, analysis)` with both present (all three steps succeeded) or
`(None, None)` (early rejection of an unsupported extension); the two cases
coincide exactly with the extension being supported or not. -/
theorem process_file_result_shape (orc : Oracles) (p1 p2 : String)
    (uf : UploadedFile) (pr : String) (fs0 : FS) (r : Option String × Option String)
    (h : (process_file orc p1 p2 uf pr fs0).result = Except.ok r) :
    (SupportedExt (file_extension_of uf.name) ∧ ∃ t a, r = (some t, some a)) ∨
    (¬ SupportedExt (file_extension_of uf.name) ∧ r = (none, none)) := by
  simp only [process_file] at h
  by_cases hv : file_extension_of uf.name ∈ videoExts
  · refine Or.inl ⟨Or.inl hv, ?_⟩
    exact runSteps_ok_shape _ _ _ _ _ _ _ (by simpa only [tryBody, if_pos hv] using h)
  · by_cases ha : file_extension_of uf.name ∈ audioExts
    · refine Or.inl ⟨Or.inr ha, ?_⟩
      exact runSteps_ok_shape _ _ _ _ _ _ _
        (by simpa only [tryBody, if_neg hv, if_pos ha] using h)
    · refine Or.inr ⟨fun hs => hs.elim hv ha, ?_⟩
      simp only [tryBody, if_neg hv, if_neg ha] at h
      exact (Except.ok.inj h).symm

/-- Witness for C4, at a concrete successful `.mp4` run. -/
theorem process_file_result_shape_witness :
    (SupportedExt (file_extension_of "clip.mp4") ∧
      ∃ t a, ((some "hello world", some "analysis text") :
        Option String × Option String) = (some t, some a)) ∨
    (¬ SupportedExt (file_extension_of "clip.mp4") ∧
      ((some "hello world", some "analysis text") :
        Option String × Option String) = (none, none)) :=
  process_file_result_shape sampleOracles "/a.mp4" "/b.wav" ⟨"clip.mp4", [7]⟩ "p"
    emptyFS (some "hello world", some "analysis text") rfl

/-- C5: the accepted extension set is exactly
`{.mp4, .mov, .avi, .m4a, .wav, .mp3}`: any of the six proceeds to audio
extraction (one of the two extraction spinners is shown), and any other
extension yields the explicit rejection message, `(None, None)`, and no
processing. -/
theorem process_file_accepted_extensions (orc : Oracles) (p1 p2 : String)
    (uf : UploadedFile) (pr : String) (fs0 : FS) :
    (file_extension_of uf.name ∈ [".mp4", ".mov", ".avi", ".m4a", ".wav", ".mp3"] →
      (Event.spinner "Extracting audio from video..." ∈
          (process_file orc p1 p2 uf pr fs0).trace ∨
        Event.spinner "Converting audio to WAV format..." ∈
          (process_file orc p1 p2 uf pr fs0).trace)) ∧
    (file_extension_of uf.name ∉ [".mp4", ".mov", ".avi", ".m4a", ".wav", ".mp3"] →
      ((process_file orc p1 p2 uf pr fs0).result = Except.ok (none, none) ∧
        Event.userError "Unsupported file format. Please upload a video or audio file." ∈
          (process_file orc p1 p2 uf pr fs0).trace ∧
        spinnersOf (process_file orc p1 p2 uf pr fs0).trace = [])) := by
  constructor
  · intro hmem
    by_cases hv : file_extension_of uf.name ∈ videoExts
    · left
      simp only [process_file, tryBody, if_pos hv]
      exact List.mem_cons_of_mem _ (List.mem_cons_of_mem _ (List.mem_append_left _
        (List.mem_append_left _ (runSteps_spinner_mem _ _ _ _ _ _))))
    · have ha : file_extension_of uf.name ∈ audioExts := by
        have := (supported_iff_mem_six (file_extension_of uf.name)).2 hmem
        exact this.elim (fun hx => absurd hx hv) id
      right
      simp only [process_file, tryBody, if_neg hv, if_pos ha]
      exact List.mem_cons_of_mem _ (List.mem_cons_of_mem _ (List.mem_append_left _
        (List.mem_append_left _ (runSteps_spinner_mem _ _ _ _ _ _))))
  · intro hn
    have h := unsupported_spec orc p1 p2 uf pr fs0
      (fun hs => hn ((supported_iff_mem_six _).1 hs))
    exact ⟨h.1, h.2.1, h.2.2.1⟩

/-- Witness for C5: a concrete accepted `.MP4` run and a concrete rejected
`.txt` run. -/
theorem process_file_accepted_extensions_witness :
    (Event.spinner "Extracting audio from video..." ∈
        (process_file sampleOracles "/a" "/b" ⟨"clip.MP4", [7]⟩ "p" emptyFS).trace ∨
      Event.spinner "Converting audio to WAV format..." ∈
        (process_file sampleOracles "/a" "/b" ⟨"clip.MP4", [7]⟩ "p" emptyFS).trace) ∧
    ((process_file sampleOracles "/c" "/d" ⟨"notes.txt", [0]⟩ "p" emptyFS).result =
        Except.ok (none, none) ∧
      Event.userError "Unsupported file format. Please upload a video or audio file." ∈
        (process_file sampleOracles "/c" "/d" ⟨"notes.txt", [0]⟩ "p" emptyFS).trace ∧
      spinnersOf (process_file sampleOracles "/c" "/d" ⟨"notes.txt", [0]⟩ "p"
        emptyFS).trace = []) :=
  ⟨(process_file_accepted_extensions sampleOracles "/a" "/b" ⟨"clip.MP4", [7]⟩ "p"
      emptyFS).1 (by decide),
    (process_file_accepted_extensions sampleOracles "/c" "/d" ⟨"notes.txt", [0]⟩ "p"
      emptyFS).2 (by decide)⟩

/-- C7: for distinct input and output paths, a successful `extract_audio`
writes exactly one file — the canonical waveform at the target path — and
leaves the input file in place, unmodified, with no deletions and every other
path untouched. -/
theorem extract_audio_frame (decode : Bytes → Except String Bytes)
    (fp op : String) (fs : FS) (c wav : Bytes)
    (hne : fp ≠ op) (hin : fs fp = some c) (hdec : decode c = Except.ok wav) :
    (extract_audio decode fp op fs).result = Except.ok () ∧
    (extract_audio decode fp op fs).fs op = some wav ∧
    (extract_audio decode fp op fs).fs fp = some c ∧
    (∀ q, q ≠ op → (extract_audio decode fp op fs).fs q = fs q) ∧
    writesOf (extract_audio decode fp op fs).trace = [op] ∧
    deletesOf (extract_audio decode fp op fs).trace = [] := by
  simp only [extract_audio, hin, hdec]
  refine ⟨trivial, setFile_same _ _ _, ?_, ?_, rfl, rfl⟩
  · rw [setFile_other _ _ _ _ hne, hin]
  · intro q hq
    exact setFile_other _ _ _ _ hq

/-- Witness for C7, decoding a concrete two-byte file with an identity
decoder. -/
theorem extract_audio_frame_witness :
    (extract_audio (fun b => Except.ok b) "/in.mp3" "/out.wav"
        (setFile emptyFS "/in.mp3" [1, 2])).result = Except.ok () ∧
    (extract_audio (fun b => Except.ok b) "/in.mp3" "/out.wav"
        (setFile emptyFS "/in.mp3" [1, 2])).fs "/out.wav" = some [1, 2] ∧
    (extract_audio (fun b => Except.ok b) "/in.mp3" "/out.wav"
        (setFile emptyFS "/in.mp3" [1, 2])).fs "/in.mp3" = some [1, 2] ∧
    (extract_audio (fun b => Except.ok b) "/in.mp3" "/out.wav"
        (setFile emptyFS "/in.mp3" [1, 2])).fs "/elsewhere" =
      (setFile emptyFS "/in.mp3" [1, 2]) "/elsewhere" ∧
    writesOf (extract_audio (fun b => Except.ok b) "/in.mp3" "/out.wav"
        (setFile emptyFS "/in.mp3" [1, 2])).trace = ["/out.wav"] ∧
    deletesOf (extract_audio (fun b => Except.ok b) "/in.mp3" "/out.wav"
        (setFile emptyFS "/in.mp3" [1, 2])).trace = [] := by
  have h := extract_audio_frame (fun b => Except.ok b) "/in.mp3" "/out.wav"
    (setFile emptyFS "/in.mp3" [1, 2]) [1, 2] [1, 2] (by decide) (by decide) rfl
  exact ⟨h.1, h.2.1, h.2.2.1, h.2.2.2.1 "/elsewhere" (by decide),
    h.2.2.2.2.1, h.2.2.2.2.2⟩

/-- C8: for a fixed uploaded file and prompt, two successful runs of the
pipeline with the same decoder and the same transcription model (deterministic
functions of file content) return byte-identical transcripts, even when the
generative oracle differs between the runs (so the analyses may differ). -/
theorem transcript_deterministic
    (dec : Bytes → Except String Bytes) (trans : Bytes → Except String String)
    (g1 g2 : String → Except String String) (p1 p2 q1 q2 : String)
    (uf : UploadedFile) (pr : String) (fsA fsB : FS) (t1 a1 t2 a2 : String)
    (hp : p1 ≠ p2) (hq : q1 ≠ q2)
    (h1 : (process_file ⟨dec, trans, g1⟩ p1 p2 uf pr fsA).result =
      Except.ok (some t1, some a1))
    (h2 : (process_file ⟨dec, trans, g2⟩ q1 q2 uf pr fsB).result =
      Except.ok (some t2, some a2)) :
    t1 = t2 := by
  obtain ⟨w1, hd1, ht1, _⟩ := process_success_shape _ _ _ _ _ _ _ _ hp h1
  obtain ⟨w2, hd2, ht2, _⟩ := process_success_shape _ _ _ _ _ _ _ _ hq h2
  have d1 : dec uf.content = Except.ok w1 := hd1
  have d2 : dec uf.content = Except.ok w2 := hd2
  have hw : w1 = w2 := Except.ok.inj (d1.symm.trans d2)
  subst hw
  have e1 : trans w1 = Except.ok t1 := ht1
  have e2 : trans w1 = Except.ok t2 := ht2
  exact Except.ok.inj (e1.symm.trans e2)

/-- Witness for C8: two concrete runs sharing decoder and transcriber but with
different generators yield the same transcript while their analyses differ. -/
theorem transcript_deterministic_witness :
    (process_file ⟨fun b => Except.ok b, fun _ => Except.ok "hello world",
        fun _ => Except.ok "A1"⟩ "/a" "/b" ⟨"clip.mp4", [7]⟩ "p" emptyFS).result =
      Except.ok (some "hello world", some "A1") ∧
    (process_file ⟨fun b => Except.ok b, fun _ => Except.ok "hello world",
        fun _ => Except.ok "A2"⟩ "/c" "/d" ⟨"clip.mp4", [7]⟩ "p" emptyFS).result =
      Except.ok (some "hello world", some "A2") ∧
    (some "A1" : Option String) ≠ some "A2" ∧
    ("hello world" : String) = "hello world" :=
  ⟨rfl, rfl, by decide,
    transcript_deterministic (fun b => Except.ok b) (fun _ => Except.ok "hello world")
      (fun _ => Except.ok "A1") (fun _ => Except.ok "A2") "/a" "/b" "/c" "/d"
      ⟨"clip.mp4", [7]⟩ "p" emptyFS emptyFS "hello world" "A1" "hello world" "A2"
      (by decide) (by decide) rfl rfl⟩

/-- C9: `process_file` lowercases the extension before comparing, so two
uploads whose names have the same lowercased extension are processed
identically; in particular an upper- or mixed-case accepted extension behaves
exactly as its lowercase form. -/
theorem process_file_ext_case_insensitive (orc : Oracles) (p1 p2 : String)
    (name1 name2 : String) (content : Bytes) (pr : String) (fs0 : FS)
    (h : file_extension_of name1 = file_extension_of name2) :
    process_file orc p1 p2 ⟨name1, content⟩ pr fs0 =
      process_file orc p1 p2 ⟨name2, content⟩ pr fs0 := by
  simp only [process_file, h]

/-- Witness for C9: a `.MP4`-named upload runs exactly like its `.mp4`-named
lowercase twin, and that run is accepted and succeeds. -/
theorem process_file_ext_case_insensitive_witness :
    process_file sampleOracles "/a.mp4" "/b.wav" ⟨"clip.MP4", [7]⟩ "p" emptyFS =
      process_file sampleOracles "/a.mp4" "/b.wav" ⟨"clip.mp4", [7]⟩ "p" emptyFS ∧
    (process_file sampleOracles "/a.mp4" "/b.wav" ⟨"clip.MP4", [7]⟩ "p"
        emptyFS).result = Except.ok (some "hello world", some "analysis text") :=
  ⟨process_file_ext_case_insensitive sampleOracles "/a.mp4" "/b.wav" "clip.MP4"
      "clip.mp4" [7] "p" emptyFS (by decide), rfl⟩

end VideoAnalyser
